import Mathlib

/-!
Shallow embedding of the authentication core of the `custos` repository
(`src/authentication/`): the data model from `models.py`, the routed request
handlers from `views.py` (the module wired up in `urls.py`), the serializer
logic from `serializers.py` they invoke, and the anomaly check from `utils.py`.

Conventions of the embedding:
- Database rows become Lean structures; the tables become lists inside one
  `DB` state record.  Timestamps are `Int` seconds; `timezone.now()` is the
  `now` field of the state, advanced by an explicit `tick` step.
- Password hashing is modelled by storing the plaintext and letting
  `check_password` be string equality (`hash`/`verify` round-trip).
- Randomness (`secrets.token_urlsafe`, `secrets.token_hex`) is modelled by
  passing the freshly generated string as an explicit argument.
- The stateless JWT credentials issued by the `simplejwt` library are
  modelled by an issued-set and a blacklist inside the state; the library's
  `RefreshToken(s)` constructor succeeds exactly on issued, non-blacklisted
  strings and raises otherwise.
- Fields that no handler reads (profile picture, bio, ...) are omitted.
-/

namespace Custos

/-- HTTP response as produced by the DRF views: status code plus the message
(or error) string of the JSON body. -/
structure Response where
  status : Nat
  message : String
deriving DecidableEq

/-- Row of the custom `User` model (`models.py` lines 11-71).  `uid` stands
for the primary key; `password` stores the credential checked by
`check_password` (hashing modelled as identity).  Profile-only fields that
no authentication handler reads are omitted. -/
structure UserRec where
  uid : Nat
  email : String
  username : String
  password : String
  is_active : Bool
  is_verified : Bool
deriving DecidableEq

/-- Row of `EmailVerificationToken` (`models.py` lines 74-97). -/
structure EmailVerificationToken where
  user : Nat
  token : String
  created_at : Int
  expires_at : Int
  is_used : Bool
deriving DecidableEq

/-- Row of `PasswordResetToken` (`models.py` lines 100-125). -/
structure PasswordResetToken where
  user : Nat
  token : String
  created_at : Int
  expires_at : Int
  is_used : Bool
  ip_address : String
  user_agent : String
deriving DecidableEq

/-- Row of the custom `RefreshToken` model (`models.py` lines 128-158),
imported as `CustomRefreshToken` in `views.py`. -/
structure RefreshToken where
  user : Nat
  token : String
  created_at : Int
  expires_at : Int
  is_revoked : Bool
  device_info : String
  ip_address : String
deriving DecidableEq

/-- Row of `LoginAttempt` (`models.py` lines 161-179): append-only audit
record keyed by plain email. -/
structure LoginAttempt where
  email : String
  ip_address : String
  user_agent : String
  success : Bool
  attempted_at : Int
  failure_reason : String
deriving DecidableEq

/-- Row of `UserSession` (`models.py` lines 182-199). -/
structure UserSession where
  user : Nat
  session_key : String
  ip_address : String
  user_agent : String
  device_info : String
  created_at : Int
  last_activity : Int
  is_active : Bool
deriving DecidableEq

/-- The persisted state: one list per table, the issued/blacklisted stateless
JWT refresh strings of the `simplejwt` library, the clock, and the next free
primary key for users. -/
structure DB where
  users : List UserRec
  evTokens : List EmailVerificationToken
  prTokens : List PasswordResetToken
  refreshRows : List RefreshToken
  attempts : List LoginAttempt
  sessions : List UserSession
  jwtIssued : List (String × Nat)
  jwtBlacklist : List String
  now : Int
  nextUid : Nat
deriving DecidableEq

/-- Empty store at time zero: the initial state of the service. -/
def DB.init : DB :=
  { users := [], evTokens := [], prTokens := [], refreshRows := [],
    attempts := [], sessions := [], jwtIssued := [], jwtBlacklist := [],
    now := 0, nextUid := 0 }

namespace EmailVerificationToken

/-- `is_expired` property (`models.py` line 90): `timezone.now() > expires_at`. -/
def is_expired (now : Int) (t : EmailVerificationToken) : Bool :=
  decide (t.expires_at < now)

/-- `is_valid` property (`models.py` line 94): `not is_used and not is_expired`. -/
def is_valid (now : Int) (t : EmailVerificationToken) : Bool :=
  !t.is_used && !(t.is_expired now)

end EmailVerificationToken

namespace PasswordResetToken

/-- `is_expired` property (`models.py` line 118). -/
def is_expired (now : Int) (t : PasswordResetToken) : Bool :=
  decide (t.expires_at < now)

/-- `is_valid` property (`models.py` line 122). -/
def is_valid (now : Int) (t : PasswordResetToken) : Bool :=
  !t.is_used && !(t.is_expired now)

end PasswordResetToken

namespace RefreshToken

/-- `is_expired` property (`models.py` line 147). -/
def is_expired (now : Int) (t : RefreshToken) : Bool :=
  decide (t.expires_at < now)

/-- `is_valid` property (`models.py` line 151):
`not is_revoked and not is_expired`. -/
def is_valid (now : Int) (t : RefreshToken) : Bool :=
  !t.is_revoked && !(t.is_expired now)

end RefreshToken

/-- Executable model of Python `str.lower()`: lowercase each character via
the underlying list (the builtin `String.map` does not reduce inside the
kernel, so `String.toLower` is rebuilt here). -/
def strLower (s : String) : String := ⟨s.data.map Char.toLower⟩

/-- Python `needle in hay` substring test on strings. -/
def strContains (hay needle : String) : Bool :=
  decide (List.IsInfix needle.toList hay.toList)

/-- Case-insensitive substring test, for the `re.search(..., re.I)` patterns
of `utils.get_device_info`. -/
def strContainsCI (hay needle : String) : Bool :=
  strContains (strLower hay) (strLower needle)

/-- Case-insensitive string equality: the ORM `__iexact` lookup. -/
def iexact (a b : String) : Bool := strLower a == strLower b

/-- `get_device_info` (`utils.py` lines 25-51): classify the user agent; the
mobile group is matched case-insensitively, the rest by plain `in`. -/
def get_device_info (ua : String) : String :=
  if ua == "" then "Unknown Device"
  else if strContainsCI ua "Mobile" || strContainsCI ua "Android" ||
          strContainsCI ua "iPhone" || strContainsCI ua "iPad" then
    if strContains ua "iPhone" then "iPhone"
    else if strContains ua "iPad" then "iPad"
    else if strContains ua "Android" then "Android Device"
    else "Mobile Device"
  else if strContains ua "Chrome" then "Chrome Browser"
  else if strContains ua "Firefox" then "Firefox Browser"
  else if strContains ua "Safari" then "Safari Browser"
  else if strContains ua "Edge" then "Edge Browser"
  else "Desktop Browser"

/-- `UserRegistrationSerializer` checks that live in this repository
(`serializers.py` lines 82-114): email uniqueness (case-insensitive),
username uniqueness, length and charset, password strength, confirmation
match.  Django's `validate_password` runs the validators configured in the
settings module, which is not under `src/`; its verdict therefore enters as
the `pwAccepted` argument.  DRF aggregates every field error into one 400
response; the embedding records the first failing message because the state
effect (no user created) is the same. -/
def registrationError (db : DB) (email username : String)
    (pwAccepted : Bool) (pw pwConfirm : String) : Option String :=
  if db.users.any (fun u => iexact u.email email) then
    some "A user with this email already exists."
  else if db.users.any (fun u => iexact u.username username) then
    some "A user with this username already exists."
  else if username.length < 3 then
    some "Username must be at least 3 characters long."
  else if !(username.toList.all (fun c => c.isAlphanum || c == '_')) then
    some "Username can only contain letters, numbers, and underscores."
  else if !pwAccepted then
    some "Password does not meet the strength requirements."
  else if pw != pwConfirm then
    some "Password and password confirmation don\x27t match."
  else none

/-- `RegisterView.create` together with its `send_verification_email`
(`views.py` lines 99-147): on valid input create the user (unverified,
active) and persist a fresh `EmailVerificationToken` with the 24h default
expiry (`models.py` line 85); `tok` is the generated
`secrets.token_urlsafe(50)` string and the email send is an external side
effect.  Note that this path does NOT invalidate prior tokens — contrast
`resendVerificationPost`. -/
def registerCreate (db : DB) (email username : String) (pwAccepted : Bool)
    (pw pwConfirm : String) (tok : String) : Response × DB :=
  match registrationError db email username pwAccepted pw pwConfirm with
  | some msg => ({ status := 400, message := msg }, db)
  | none =>
    let u : UserRec :=
      { uid := db.nextUid, email := strLower email, username := strLower username,
        password := pw, is_active := true, is_verified := false }
    let t : EmailVerificationToken :=
      { user := u.uid, token := tok, created_at := db.now,
        expires_at := db.now + 24 * 3600, is_used := false }
    ({ status := 201,
       message := "Registration successful. Please check your email for verification link." },
     { db with users := db.users ++ [u], evTokens := db.evTokens ++ [t],
               nextUid := db.nextUid + 1 })

/-- `verify_email` view (`views.py` lines 150-180): look the token up, reject
an absent row and an invalid (used or expired) row with distinct messages,
otherwise set `user.is_verified` and mark the row used.  The row is saved by
primary key in the source; the `token` column is unique, so updating the
matching token is the same row. -/
def verify_email (db : DB) (token : String) : Response × DB :=
  match db.evTokens.find? (fun t => t.token == token) with
  | none => ({ status := 400, message := "Invalid verification link." }, db)
  | some vt =>
    if !(vt.is_valid db.now) then
      ({ status := 400, message := "Verification link has expired or been used." }, db)
    else
      ({ status := 200,
         message := "Email verified successfully. You can now login to your account." },
       { db with
           users := db.users.map
             (fun u => if u.uid == vt.user then { u with is_verified := true } else u),
           evTokens := db.evTokens.map
             (fun t => if t.token == token then { t with is_used := true } else t) })

/-- `ResendVerificationView.post` with `ResendVerificationSerializer`
(`views.py` lines 188-211, `serializers.py` lines 171-181): the user must
exist and be unverified; all their unused verification tokens are marked
used (`views.py` line 196) before the fresh token `tok` is persisted. -/
def resendVerificationPost (db : DB) (email tok : String) : Response × DB :=
  match db.users.find? (fun u => iexact u.email email) with
  | none => ({ status := 400, message := "No user found with this email address." }, db)
  | some u =>
    if u.is_verified then
      ({ status := 400, message := "This email is already verified." }, db)
    else
      let cleared := db.evTokens.map
        (fun t => if t.user == u.uid && !t.is_used then { t with is_used := true } else t)
      let nt : EmailVerificationToken :=
        { user := u.uid, token := tok, created_at := db.now,
          expires_at := db.now + 24 * 3600, is_used := false }
      ({ status := 200, message := "Verification email sent successfully." },
       { db with evTokens := cleared ++ [nt] })

/-- `PasswordResetRequestView.post` (`views.py` lines 239-272):
`PasswordResetRequestSerializer.validate_email` deliberately never rejects a
nonexistent email (`serializers.py` lines 189-197), and the view catches
`User.DoesNotExist`; both branches return the identical 200 response.  For
an existing user all unused reset tokens are marked used and a fresh one
with the 2h default expiry (`models.py` line 113) is persisted. -/
def passwordResetRequestPost (db : DB) (email tok ip ua : String) : Response × DB :=
  let resp : Response :=
    { status := 200,
      message := "If an account with this email exists, a password reset link has been sent." }
  match db.users.find? (fun u => iexact u.email email) with
  | none => (resp, db)
  | some u =>
    let cleared := db.prTokens.map
      (fun t => if t.user == u.uid && !t.is_used then { t with is_used := true } else t)
    let nt : PasswordResetToken :=
      { user := u.uid, token := tok, created_at := db.now,
        expires_at := db.now + 2 * 3600, is_used := false,
        ip_address := ip, user_agent := ua }
    (resp, { db with prTokens := cleared ++ [nt] })

/-- `PasswordResetConfirmView.post` with `PasswordResetConfirmSerializer`
(`views.py` lines 304-340, `serializers.py` lines 200-231).  The serializer
checks the token first (absent vs. invalid, distinct messages), then the
framework password validators (`pwAccepted`, configured outside `src/`),
then the confirmation match; the view re-checks validity, sets the new
password, marks the token used and revokes every refresh-token row of that
user (`views.py` line 329). -/
def passwordResetConfirmPost (db : DB) (token : String) (pwAccepted : Bool)
    (pw pwConfirm : String) : Response × DB :=
  match db.prTokens.find? (fun t => t.token == token) with
  | none => ({ status := 400, message := "Invalid reset token." }, db)
  | some rt =>
    if !(rt.is_valid db.now) then
      ({ status := 400, message := "Reset token has expired or been used." }, db)
    else if !pwAccepted then
      ({ status := 400, message := "Password does not meet the strength requirements." }, db)
    else if pw != pwConfirm then
      ({ status := 400, message := "Password and password confirmation don\x27t match." }, db)
    else
      ({ status := 200,
         message := "Password reset successful. You can now login with your new password." },
       { db with
           users := db.users.map
             (fun u => if u.uid == rt.user then { u with password := pw } else u),
           prTokens := db.prTokens.map
             (fun t => if t.token == token then { t with is_used := true } else t),
           refreshRows := db.refreshRows.map
             (fun r => if r.user == rt.user then { r with is_revoked := true } else r) })

/-- `django.contrib.auth.authenticate` with the default `ModelBackend` over
the custom manager: `get_by_natural_key` matches email or username
case-insensitively (`managers.py` lines 64-68), then the password check and
`user_can_authenticate` (`is_active`) decide the outcome. -/
def authenticate (db : DB) (email pw : String) : Option UserRec :=
  match db.users.find? (fun u => iexact u.email email || iexact u.username email) with
  | none => none
  | some u => if u.password == pw && u.is_active then some u else none

/-- Outcome of `CustomTokenObtainPairSerializer.validate`. -/
inductive TokenObtainResult where
  | ok (u : UserRec)
  | err (msg : String)
deriving DecidableEq

/-- `CustomTokenObtainPairSerializer.validate` (`serializers.py` lines
19-42): authenticate, then reject an inactive and an unverified user with
dedicated messages.  (With the default backend the `is_active` branch is
unreachable, since `authenticate` already filters inactive users; it is kept
because the source has it.) -/
def tokenObtainValidate (db : DB) (email pw : String) : TokenObtainResult :=
  match authenticate db email pw with
  | none => .err "Invalid email or password."
  | some u =>
    if !u.is_active then .err "User account is disabled."
    else if !u.is_verified then
      .err "Email not verified. Please check your email for verification link."
    else .ok u

/-- Failure-reason normalisation of `CustomTokenObtainPairView.post`
(`views.py` lines 74-80). -/
def mapFailureReason (msg : String) : String :=
  if strContains msg "Invalid email or password" then "Invalid credentials"
  else if strContains msg "Email not verified" then "Email not verified"
  else if strContains msg "User account is disabled" then "Account disabled"
  else msg

/-- Failure audit write of the login view (`views.py` lines 82-88). -/
def loginRecordFailure (db : DB) (email ip ua reason : String) : DB :=
  { db with attempts := db.attempts ++
      [{ email := email, ip_address := ip, user_agent := ua, success := false,
         attempted_at := db.now, failure_reason := reason }] }

/-- First persisted effect of a successful login: the `simplejwt` serializer
issues the stateless refresh/access pair, putting the refresh string into
circulation. -/
def loginIssueJwt (db : DB) (u : UserRec) (refreshTok : String) : DB :=
  { db with jwtIssued := db.jwtIssued ++ [(refreshTok, u.uid)] }

/-- Second persisted effect: the success `LoginAttempt` row
(`views.py` lines 49-54). -/
def loginRecordSuccess (db : DB) (email ip ua : String) : DB :=
  { db with attempts := db.attempts ++
      [{ email := email, ip_address := ip, user_agent := ua, success := true,
         attempted_at := db.now, failure_reason := "" }] }

/-- Third persisted effect: the `UserSession` row (`views.py` lines 57-68);
the user is re-fetched by case-insensitive email and a missing user is
swallowed (`except User.DoesNotExist: pass`). -/
def loginCreateSession (db : DB) (email ip ua sessionKey : String) : DB :=
  match db.users.find? (fun v => iexact v.email email) with
  | none => db
  | some v =>
    { db with sessions := db.sessions ++
        [{ user := v.uid, session_key := sessionKey, ip_address := ip,
           user_agent := ua, device_info := get_device_info ua,
           created_at := db.now, last_activity := db.now, is_active := true }] }

/-- What the login endpoint hands back to the caller. -/
inductive LoginOutcome where
  | success (refreshTok accessTok : String)
  | failure (reason : String)
deriving DecidableEq

/-- `CustomTokenObtainPairView.post` (`views.py` lines 39-90): on serializer
failure append one failed `LoginAttempt` with the normalised reason and
re-raise (a 4xx response); on success issue the JWT pair, append the success
`LoginAttempt`, then create the `UserSession`.  `refreshTok`, `accessTok` and
`sessionKey` are the freshly generated strings. -/
def loginPost (db : DB) (email pw ip ua refreshTok accessTok sessionKey : String) :
    LoginOutcome × DB :=
  match tokenObtainValidate db email pw with
  | .err msg =>
    (.failure (mapFailureReason msg),
     loginRecordFailure db email ip ua (mapFailureReason msg))
  | .ok u =>
    (.success refreshTok accessTok,
     loginCreateSession (loginRecordSuccess (loginIssueJwt db u refreshTok) email ip ua)
       email ip ua sessionKey)

/-- The states the login flow passes through, one entry after each persisted
write, in source order.  `CustomTokenObtainPairView.post` has no enclosing
`transaction.atomic` block, so an interruption after any single write leaves
exactly one of these states behind. -/
def loginCrashStates (db : DB) (email pw ip ua refreshTok sessionKey : String) :
    List DB :=
  match tokenObtainValidate db email pw with
  | .err msg => [db, loginRecordFailure db email ip ua (mapFailureReason msg)]
  | .ok u =>
    [db,
     loginIssueJwt db u refreshTok,
     loginRecordSuccess (loginIssueJwt db u refreshTok) email ip ua,
     loginCreateSession (loginRecordSuccess (loginIssueJwt db u refreshTok) email ip ua)
       email ip ua sessionKey]

/-- Verdict of the `simplejwt` `RefreshToken(raw)` constructor used by the
logout view: decoding, signature, expiry and blacklist checks succeed
exactly on strings the library issued that were not blacklisted; on anything
else the constructor raises `TokenError`. -/
def jwtParseOk (db : DB) (tok : String) : Bool :=
  db.jwtIssued.any (fun p => p.1 == tok) && !(db.jwtBlacklist.contains tok)

/-- The unconditional 200 response of the logout view. -/
def logoutOk : Response := { status := 200, message := "Logged out successfully." }

/-- `LogoutView.post` (`views.py` lines 381-412): with a supplied refresh
token, parse it (`RefreshToken(raw)`), blacklist it, revoke the matching
custom row of the authenticated user and deactivate ALL the user's
sessions; with no token, revoke all the user's custom rows and deactivate
all sessions.  Any exception — in particular a `TokenError` from a
malformed or already blacklisted string, raised before any write — is
caught and the same 200 response is returned with no state change. -/
def logoutPost (db : DB) (uid : Nat) (refresh : Option String) : Response × DB :=
  match refresh with
  | some rt =>
    if jwtParseOk db rt then
      (logoutOk,
       { db with
           jwtBlacklist := db.jwtBlacklist ++ [rt],
           refreshRows := db.refreshRows.map
             (fun r => if r.user == uid && r.token == rt then { r with is_revoked := true } else r),
           sessions := db.sessions.map
             (fun s => if s.user == uid then { s with is_active := false } else s) })
    else
      (logoutOk, db)
  | none =>
    (logoutOk,
     { db with
         refreshRows := db.refreshRows.map
           (fun r => if r.user == uid then { r with is_revoked := true } else r),
         sessions := db.sessions.map
           (fun s => if s.user == uid then { s with is_active := false } else s) })

/-- `ChangePasswordView.post` with `ChangePasswordSerializer`
(`views.py` lines 348-365, `serializers.py` lines 241-260): `uid` is the
authenticated `request.user`; on success the password is replaced and every
refresh-token row of the user is revoked. -/
def changePasswordPost (db : DB) (uid : Nat) (oldPw : String) (pwAccepted : Bool)
    (newPw newPwConfirm : String) : Response × DB :=
  match db.users.find? (fun u => u.uid == uid) with
  | none => ({ status := 400, message := "Old password is incorrect." }, db)
  | some u =>
    if u.password != oldPw then
      ({ status := 400, message := "Old password is incorrect." }, db)
    else if !pwAccepted then
      ({ status := 400, message := "Password does not meet the strength requirements." }, db)
    else if newPw != newPwConfirm then
      ({ status := 400, message := "New password and confirmation don\x27t match." }, db)
    else
      ({ status := 200,
         message := "Password changed successfully. Please login again with your new password." },
       { db with
           users := db.users.map
             (fun v => if v.uid == uid then { v with password := newPw } else v),
           refreshRows := db.refreshRows.map
             (fun r => if r.user == uid then { r with is_revoked := true } else r) })

/-- `revoke_session` (`views.py` lines 442-459); the integer-pk lookup of the
source is represented by the unique `session_key`. -/
def revokeSessionPost (db : DB) (uid : Nat) (key : String) : Response × DB :=
  if db.sessions.any (fun s => s.session_key == key && s.user == uid) then
    ({ status := 200, message := "Session revoked successfully." },
     { db with
         sessions := db.sessions.map
           (fun s => if s.session_key == key && s.user == uid then { s with is_active := false } else s) })
  else
    ({ status := 404, message := "Session not found." }, db)

/-- Failed attempts from `ip` whose timestamp lies in the trailing one-hour
window (`utils.py` lines 157-161: `attempted_at__gte = now - 1h`). -/
def recentFailureCount (db : DB) (ip : String) : Nat :=
  (db.attempts.filter
    (fun a => a.ip_address == ip && !a.success && decide (db.now - 3600 ≤ a.attempted_at))).length

/-- `is_suspicious_activity` (`utils.py` lines 152-177): five or more recent
failures from the IP trip the first flag; otherwise a user with no prior
session from this IP trips the new-location flag; otherwise normal.  The
`ua` argument is unused by the source as well. -/
def is_suspicious_activity (db : DB) (user : Option Nat) (ip ua : String) :
    Bool × String :=
  if 5 ≤ recentFailureCount db ip then
    (true, "Multiple failed login attempts from this IP")
  else
    match user with
    | some uid =>
      if !(db.sessions.any (fun s => s.user == uid && s.ip_address == ip)) then
        (true, "Login from new location")
      else (false, "Activity appears normal")
    | none => (false, "Activity appears normal")

/-- One state-changing request handled by the service (the entry points wired
up in `authentication/urls.py`), or the clock advancing.  The random strings
generated inside a handler and the framework password-validator verdict are
the constructor arguments. -/
inductive Step : DB → DB → Prop where
  | register (db : DB) (email username : String) (pwAccepted : Bool)
      (pw pwConfirm tok : String) :
      Step db (registerCreate db email username pwAccepted pw pwConfirm tok).2
  | verify (db : DB) (tok : String) :
      Step db (verify_email db tok).2
  | resend (db : DB) (email tok : String) :
      Step db (resendVerificationPost db email tok).2
  | resetRequest (db : DB) (email tok ip ua : String) :
      Step db (passwordResetRequestPost db email tok ip ua).2
  | resetConfirm (db : DB) (token : String) (pwAccepted : Bool) (pw pwConfirm : String) :
      Step db (passwordResetConfirmPost db token pwAccepted pw pwConfirm).2
  | login (db : DB) (email pw ip ua refreshTok accessTok sessionKey : String) :
      Step db (loginPost db email pw ip ua refreshTok accessTok sessionKey).2
  | logout (db : DB) (uid : Nat) (refresh : Option String) :
      Step db (logoutPost db uid refresh).2
  | changePassword (db : DB) (uid : Nat) (oldPw : String) (pwAccepted : Bool)
      (newPw newPwConfirm : String) :
      Step db (changePasswordPost db uid oldPw pwAccepted newPw newPwConfirm).2
  | revokeSession (db : DB) (uid : Nat) (key : String) :
      Step db (revokeSessionPost db uid key).2
  | tick (db : DB) (dt : Int) (h : 0 ≤ dt) :
      Step db { db with now := db.now + dt }

/-- States reachable from the empty store through sequences of requests. -/
def Reachable (db : DB) : Prop :=
  Relation.ReflTransGen Step DB.init db

/-- Unused (not yet consumed or soft-invalidated) verification tokens a user
currently owns. -/
def unusedEvCount (db : DB) (uid : Nat) : Nat :=
  db.evTokens.countP (fun t => t.user == uid && !t.is_used)

/-- Unused password-reset tokens a user currently owns. -/
def unusedPrCount (db : DB) (uid : Nat) : Nat :=
  db.prTokens.countP (fun t => t.user == uid && !t.is_used)

/-- Inductive invariant for the token-uniqueness property: every user owns at
most one unused token of each kind, and all token owners and users stay
below the next free primary key (so a freshly registered user owns no
tokens). -/
def Inv (db : DB) : Prop :=
  (∀ uid, unusedEvCount db uid ≤ 1 ∧ unusedPrCount db uid ≤ 1)
  ∧ (∀ t ∈ db.evTokens, t.user < db.nextUid)
  ∧ (∀ t ∈ db.prTokens, t.user < db.nextUid)
  ∧ (∀ u ∈ db.users, u.uid < db.nextUid)

/-- A verified, active user on record (sample data for concrete runs). -/
def sampleUser : UserRec :=
  { uid := 1, email := "a@x.com", username := "alice", password := "GoodPw1!",
    is_active := true, is_verified := true }

/-- An unverified user on record (sample data for concrete runs). -/
def unverifiedUser : UserRec :=
  { uid := 2, email := "b@x.com", username := "bob", password := "GoodPw1!",
    is_active := true, is_verified := false }

/-- Store holding one verified user and nothing else. -/
def dbOneUser : DB :=
  { DB.init with
    users := [sampleUser],
    nextUid := 2 }

/-- Store holding the unverified user and nothing else. -/
def dbUnverified : DB :=
  { DB.init with
    users := [unverifiedUser],
    nextUid := 3 }

/-- Store whose only verification token is expired and unused (clock at 100,
expiry at 10). -/
def dbEvExpired : DB :=
  { DB.init with
    users := [sampleUser],
    nextUid := 2,
    now := 100,
    evTokens := [{ user := 1, token := "tv", created_at := 0, expires_at := 10,
                   is_used := false }] }

/-- Store whose only verification token is already used but far from expiry. -/
def dbEvUsed : DB :=
  { DB.init with
    users := [sampleUser],
    nextUid := 2,
    now := 100,
    evTokens := [{ user := 1, token := "tv", created_at := 0, expires_at := 1000000,
                   is_used := true }] }

/-- Store whose only reset token is expired and unused. -/
def dbPrExpired : DB :=
  { DB.init with
    users := [sampleUser],
    nextUid := 2,
    now := 100,
    prTokens := [{ user := 1, token := "tp", created_at := 0, expires_at := 10,
                   is_used := false, ip_address := "", user_agent := "" }] }

/-- Store whose only reset token is already used but far from expiry. -/
def dbPrUsed : DB :=
  { DB.init with
    users := [sampleUser],
    nextUid := 2,
    now := 100,
    prTokens := [{ user := 1, token := "tp", created_at := 0, expires_at := 1000000,
                   is_used := true, ip_address := "", user_agent := "" }] }

/-- A live session of the sample user. -/
def sampleSession : UserSession :=
  { user := 1, session_key := "sk0", ip_address := "9.9.9.9", user_agent := "ua0",
    device_info := "Desktop Browser", created_at := 0, last_activity := 0,
    is_active := true }

/-- A custom refresh-token row of the sample user, with its JWT string in
circulation. -/
def sampleRefreshRow : RefreshToken :=
  { user := 1, token := "jwt1", created_at := 0, expires_at := 604800,
    is_revoked := false, device_info := "Desktop", ip_address := "9.9.9.9" }

/-- Store with the sample user logged in: one active session, one custom
refresh row, its JWT string issued. -/
def dbLoggedIn : DB :=
  { DB.init with
    users := [sampleUser],
    nextUid := 2,
    sessions := [sampleSession],
    refreshRows := [sampleRefreshRow],
    jwtIssued := [("jwt1", 1)] }

/-- Store with a currently valid reset token for the sample user alongside a
live refresh row. -/
def dbResetReady : DB :=
  { DB.init with
    users := [sampleUser],
    nextUid := 2,
    now := 100,
    prTokens := [{ user := 1, token := "tp", created_at := 0, expires_at := 7200,
                   is_used := false, ip_address := "", user_agent := "" }],
    refreshRows := [sampleRefreshRow],
    jwtIssued := [("jwt1", 1)] }

/-- Store with five recent failed login attempts from one IP. -/
def dbFiveFails : DB :=
  { DB.init with
    now := 1000,
    attempts :=
      [{ email := "a@x.com", ip_address := "1.2.3.4", user_agent := "", success := false,
         attempted_at := 100, failure_reason := "Invalid credentials" },
       { email := "a@x.com", ip_address := "1.2.3.4", user_agent := "", success := false,
         attempted_at := 200, failure_reason := "Invalid credentials" },
       { email := "a@x.com", ip_address := "1.2.3.4", user_agent := "", success := false,
         attempted_at := 300, failure_reason := "Invalid credentials" },
       { email := "a@x.com", ip_address := "1.2.3.4", user_agent := "", success := false,
         attempted_at := 400, failure_reason := "Invalid credentials" },
       { email := "a@x.com", ip_address := "1.2.3.4", user_agent := "", success := false,
         attempted_at := 500, failure_reason := "Invalid credentials" }] }

/-- Store with one known session of user 1 from IP 9.9.9.9 and a single
recent failure from that IP. -/
def dbKnownIp : DB :=
  { DB.init with
    users := [sampleUser],
    nextUid := 2,
    now := 1000,
    sessions := [sampleSession],
    attempts :=
      [{ email := "a@x.com", ip_address := "9.9.9.9", user_agent := "", success := false,
         attempted_at := 100, failure_reason := "Invalid credentials" }] }

/-- Intermediate state of the concrete login run on `dbOneUser`: after the
JWT issuance and the success-attempt write, before the session write. -/
def c4MidState : DB :=
  loginRecordSuccess (loginIssueJwt dbOneUser sampleUser "r1") "a@x.com" "ip" "ua"

/-- Store with an unverified user who owns one live verification token. -/
def dbResendReady : DB :=
  { DB.init with
    users := [unverifiedUser],
    nextUid := 3,
    now := 100,
    evTokens := [{ user := 2, token := "tv1", created_at := 0, expires_at := 86400,
                   is_used := false }] }

/-- Complement of the strict clock comparison used by `is_expired`. -/
theorem not_decide_lt (a b : Int) : (!decide (a < b)) = decide (b ≤ a) := by
  rcases lt_or_le a b with h | h
  · rw [decide_eq_true h, decide_eq_false (not_le.mpr h)]
    rfl
  · rw [decide_eq_false (not_lt.mpr h), decide_eq_true h]
    rfl

/-- C2 counterexample: a non-revoked refresh token whose expiry equals the
current instant is still reported valid by the model code, refuting the
claimed strict bound (validation failing with Expired whenever
`now() ≥ expires_at`, expired at the instant of equality). -/
theorem c2_boundary_counterexample :
    ({ user := 1, token := "r", created_at := 0, expires_at := 5,
       is_revoked := false, device_info := "", ip_address := "" } : RefreshToken).is_revoked
        = false
    ∧ ({ user := 1, token := "r", created_at := 0, expires_at := 5,
         is_revoked := false, device_info := "", ip_address := "" } : RefreshToken).expires_at
        ≤ 5
    ∧ ({ user := 1, token := "r", created_at := 0, expires_at := 5,
         is_revoked := false, device_info := "", ip_address := "" } : RefreshToken).is_valid 5
        = true := by
  decide

/-- C2 (amended): validity is the inclusive bound — a token is valid iff it
is not revoked (resp. not used) and `now ≤ expires_at`; `is_expired` is the
strict `expires_at < now`, so at `now = expires_at` the token still counts
as valid and expiry triggers only strictly afterwards. -/
theorem c2_validity_inclusive_bound (now : Int) (rt : RefreshToken)
    (et : EmailVerificationToken) (pt : PasswordResetToken) :
    rt.is_valid now = (!rt.is_revoked && decide (now ≤ rt.expires_at))
    ∧ et.is_valid now = (!et.is_used && decide (now ≤ et.expires_at))
    ∧ pt.is_valid now = (!pt.is_used && decide (now ≤ pt.expires_at)) := by
  refine ⟨?_, ?_, ?_⟩ <;>
    simp only [RefreshToken.is_valid, RefreshToken.is_expired,
      EmailVerificationToken.is_valid, EmailVerificationToken.is_expired,
      PasswordResetToken.is_valid, PasswordResetToken.is_expired,
      not_decide_lt]

/-- The logout view returns the fixed 200 response on every control path,
the exception handler included (`views.py` lines 404-412). -/
theorem logoutPost_fst (db : DB) (uid : Nat) (r : Option String) :
    (logoutPost db uid r).1 = logoutOk := by
  unfold logoutPost
  cases r with
  | none => rfl
  | some rt =>
    by_cases h : jwtParseOk db rt
    · simp [h]
    · simp [h]

/-- C7: logout is idempotent — two successive calls with the same refresh
token both return the 200 success response, the second one even though the
token is blacklisted or otherwise invalid by then. -/
theorem c7_logout_idempotent (db : DB) (uid : Nat) (r : Option String) :
    (logoutPost db uid r).1 = logoutOk
    ∧ (logoutPost (logoutPost db uid r).2 uid r).1 = logoutOk :=
  ⟨logoutPost_fst db uid r, logoutPost_fst (logoutPost db uid r).2 uid r⟩

/-- C8: the password-reset request returns the identical response for an
email that belongs to an existing user and for one that belongs to no user,
so the response does not reveal account existence. -/
theorem c8_reset_request_uniform_response (db : DB)
    (e1 e2 tok1 tok2 ip1 ua1 ip2 ua2 : String)
    (h1 : ∃ u ∈ db.users, iexact u.email e1 = true)
    (h2 : ∀ u ∈ db.users, iexact u.email e2 = false) :
    (passwordResetRequestPost db e1 tok1 ip1 ua1).1
      = (passwordResetRequestPost db e2 tok2 ip2 ua2).1 := by
  clear h1 h2
  unfold passwordResetRequestPost
  cases db.users.find? (fun u => iexact u.email e1) <;>
    cases db.users.find? (fun u => iexact u.email e2) <;> rfl

/-- C8 witness on the concrete store: `a@x.com` belongs to the sample user,
`zz@x.com` to nobody. -/
theorem c8_reset_request_uniform_response_witness :
    (passwordResetRequestPost dbOneUser "a@x.com" "t1" "ip" "ua").1
      = (passwordResetRequestPost dbOneUser "zz@x.com" "t2" "ip" "ua").1 :=
  c8_reset_request_uniform_response dbOneUser "a@x.com" "zz@x.com" "t1" "t2" "ip" "ua" "ip" "ua"
    ⟨sampleUser, by decide, by decide⟩ (by decide)

/-- C9: at least five failed attempts from the IP within the one-hour window
trip the check with the multiple-failures reason; with at most four recent
failures and a previously used IP for the user it reports normal activity. -/
theorem c9_suspicious_activity_policy (db : DB) (user : Option Nat) (uid : Nat)
    (ip ua : String) :
    (5 ≤ recentFailureCount db ip →
      is_suspicious_activity db user ip ua
        = (true, "Multiple failed login attempts from this IP"))
    ∧ (recentFailureCount db ip ≤ 4 →
      (∃ s ∈ db.sessions, s.user = uid ∧ s.ip_address = ip) →
      is_suspicious_activity db (some uid) ip ua = (false, "Activity appears normal")) := by
  constructor
  · intro h5
    unfold is_suspicious_activity
    rw [if_pos h5]
  · intro h4 hex
    obtain ⟨s, hs, hu, hip⟩ := hex
    unfold is_suspicious_activity
    rw [if_neg (by omega)]
    have hany : db.sessions.any (fun s => s.user == uid && s.ip_address == ip) = true := by
      refine List.any_eq_true.mpr ⟨s, hs, ?_⟩
      simp [hu, hip]
    simp [hany]

/-- C9 witness: the flag trips on the store with five recent failures and
stays quiet on the store with one failure and a known IP. -/
theorem c9_suspicious_activity_policy_witness :
    is_suspicious_activity dbFiveFails none "1.2.3.4" ""
        = (true, "Multiple failed login attempts from this IP")
    ∧ is_suspicious_activity dbKnownIp (some 1) "9.9.9.9" ""
        = (false, "Activity appears normal") :=
  ⟨(c9_suspicious_activity_policy dbFiveFails none 0 "1.2.3.4" "").1 (by decide),
   (c9_suspicious_activity_policy dbKnownIp (some 1) 1 "9.9.9.9" "").2 (by decide)
     ⟨sampleSession, by decide, by decide, by decide⟩⟩

/-- C3 counterexample: an expired unused token and an already-used unexpired
token yield the identical error report — in the verification flow and in the
reset-confirmation flow alike — while only the missing token is reported
differently; so the three failures collapse to two distinct reports. -/
theorem c3_collapsed_error_counterexample :
    (verify_email dbEvExpired "tv").1 = (verify_email dbEvUsed "tv").1
    ∧ (verify_email dbEvExpired "tv").1.status = 400
    ∧ (verify_email dbEvExpired "tv").1 ≠ (verify_email DB.init "tv").1
    ∧ (passwordResetConfirmPost dbPrExpired "tp" true "NewPw1A" "NewPw1A").1
        = (passwordResetConfirmPost dbPrUsed "tp" true "NewPw1A" "NewPw1A").1 := by
  decide

/-- C3 (amended): token-not-found is reported distinctly from the other two
failures, but expired and already-used collapse into one identical error
report, in both the email-verification and the reset-confirmation flows. -/
theorem c3_two_error_kinds (db : DB) (tok pw : String) :
    (db.evTokens.find? (fun t => t.token == tok) = none →
      (verify_email db tok).1 = ⟨400, "Invalid verification link."⟩)
    ∧ (∀ vt, db.evTokens.find? (fun t => t.token == tok) = some vt →
        vt.is_valid db.now = false →
        (verify_email db tok).1 = ⟨400, "Verification link has expired or been used."⟩)
    ∧ (db.prTokens.find? (fun t => t.token == tok) = none →
      (passwordResetConfirmPost db tok true pw pw).1 = ⟨400, "Invalid reset token."⟩)
    ∧ (∀ rt, db.prTokens.find? (fun t => t.token == tok) = some rt →
        rt.is_valid db.now = false →
        (passwordResetConfirmPost db tok true pw pw).1
          = ⟨400, "Reset token has expired or been used."⟩)
    ∧ (⟨400, "Invalid verification link."⟩ : Response)
        ≠ ⟨400, "Verification link has expired or been used."⟩
    ∧ (⟨400, "Invalid reset token."⟩ : Response)
        ≠ ⟨400, "Reset token has expired or been used."⟩ := by
  refine ⟨?_, ?_, ?_, ?_, by decide, by decide⟩
  · intro h
    unfold verify_email
    rw [h]
  · intro vt h hv
    unfold verify_email
    rw [h]
    simp [hv]
  · intro h
    unfold passwordResetConfirmPost
    rw [h]
  · intro rt h hv
    unfold passwordResetConfirmPost
    rw [h]
    simp [hv]

/-- C3 witness: the amended behaviour evaluated on the concrete stores. -/
theorem c3_two_error_kinds_witness :
    (verify_email DB.init "tv").1 = ⟨400, "Invalid verification link."⟩
    ∧ (verify_email dbEvUsed "tv").1
        = ⟨400, "Verification link has expired or been used."⟩ :=
  ⟨(c3_two_error_kinds DB.init "tv" "p").1 (by decide),
   (c3_two_error_kinds dbEvUsed "tv" "p").2.1
     { user := 1, token := "tv", created_at := 0, expires_at := 1000000, is_used := true }
     (by decide) (by decide)⟩

/-- C10 counterexample: calling logout with a malformed refresh-token string
returns the success response and leaves the store untouched — the session of
the authenticated user stays active, because the `TokenError` raised by
`RefreshToken(raw)` is caught before any write. -/
theorem c10_logout_skips_sessions_counterexample :
    logoutPost dbLoggedIn 1 (some "garbage") = (logoutOk, dbLoggedIn)
    ∧ sampleSession ∈ dbLoggedIn.sessions
    ∧ sampleSession.user = 1
    ∧ sampleSession.is_active = true := by
  decide

/-- C10 (amended): when the supplied refresh token is accepted by the JWT
library — and likewise when no token is supplied — logout deactivates every
session of the user while revoking only the matching refresh-token row; a
rejected token makes the call succeed without writing anything. -/
theorem c10_logout_deactivates_all_sessions (db : DB) (uid : Nat) (rt : String)
    (h : jwtParseOk db rt = true) :
    (∀ s ∈ (logoutPost db uid (some rt)).2.sessions, s.user = uid → s.is_active = false)
    ∧ (∀ row ∈ db.refreshRows, ¬(row.user = uid ∧ row.token = rt) →
        row ∈ (logoutPost db uid (some rt)).2.refreshRows)
    ∧ (∀ row ∈ db.refreshRows, row.user = uid → row.token = rt →
        { row with is_revoked := true } ∈ (logoutPost db uid (some rt)).2.refreshRows)
    ∧ (∀ s ∈ (logoutPost db uid none).2.sessions, s.user = uid → s.is_active = false) := by
  refine ⟨?_, ?_, ?_, ?_⟩
  · intro s hs huid
    simp only [logoutPost, h, if_true] at hs
    simp only [List.mem_map] at hs
    obtain ⟨a, _, rfl⟩ := hs
    by_cases hu : a.user = uid
    · simp [hu]
    · rw [if_neg (by simpa using hu)] at huid ⊢
      exact absurd huid hu
  · intro row hrow hne
    simp only [logoutPost, h, if_true, List.mem_map]
    refine ⟨row, hrow, ?_⟩
    rw [if_neg]
    simp only [Bool.and_eq_true, beq_iff_eq]
    exact fun hc => hne hc
  · intro row hrow hu ht
    simp only [logoutPost, h, if_true, List.mem_map]
    exact ⟨row, hrow, by simp [hu, ht]⟩
  · intro s hs huid
    simp only [logoutPost, List.mem_map] at hs
    obtain ⟨a, _, rfl⟩ := hs
    by_cases hu : a.user = uid
    · simp [hu]
    · rw [if_neg (by simpa using hu)] at huid ⊢
      exact absurd huid hu

/-- C10 witness: on the logged-in store the valid JWT string leads to the
matching row being revoked. -/
theorem c10_logout_deactivates_all_sessions_witness :
    ({ sampleRefreshRow with is_revoked := true })
      ∈ (logoutPost dbLoggedIn 1 (some "jwt1")).2.refreshRows :=
  (c10_logout_deactivates_all_sessions dbLoggedIn 1 "jwt1" (by decide)).2.2.1
    sampleRefreshRow (by decide) rfl rfl

/-- Facts recovered from a successful `authenticate`: the password matched
and the account is active. -/
theorem authenticate_some (db : DB) (email pw : String) (u : UserRec)
    (h : authenticate db email pw = some u) :
    u.password = pw ∧ u.is_active = true := by
  unfold authenticate at h
  split at h
  · exact absurd h (by simp)
  · split at h
    · cases h
      rename_i hc
      simp only [Bool.and_eq_true, beq_iff_eq] at hc
      exact hc
    · exact absurd h (by simp)

/-- C5: login against an unverified account with correct credentials fails
with the EmailNotVerified reason and changes the store only by appending one
failed `LoginAttempt` — no session, no refresh token, nothing else. -/
theorem c5_unverified_login (db : DB) (email pw ip ua rt ak sk : String) (u : UserRec)
    (hauth : authenticate db email pw = some u) (hver : u.is_verified = false) :
    loginPost db email pw ip ua rt ak sk
      = (.failure "Email not verified",
         { db with attempts := db.attempts ++
             [{ email := email, ip_address := ip, user_agent := ua, success := false,
                attempted_at := db.now, failure_reason := "Email not verified" }] }) := by
  have hact := (authenticate_some db email pw u hauth).2
  unfold loginPost tokenObtainValidate
  rw [hauth]
  simp only [hact, hver]
  rfl

/-- C5 witness: the concrete unverified user with the correct password. -/
theorem c5_unverified_login_witness :
    loginPost dbUnverified "b@x.com" "GoodPw1!" "ip" "ua" "r" "a" "sk"
      = (.failure "Email not verified",
         { dbUnverified with attempts := dbUnverified.attempts ++
             [{ email := "b@x.com", ip_address := "ip", user_agent := "ua", success := false,
                attempted_at := dbUnverified.now,
                failure_reason := "Email not verified" }] }) :=
  c5_unverified_login dbUnverified "b@x.com" "GoodPw1!" "ip" "ua" "r" "a" "sk"
    unverifiedUser (by decide) rfl

/-- C6: a successful password-reset confirmation revokes every refresh-token
row of that user — each prior row reappears with `is_revoked := true` — and
every row of that user in the post state fails validation at any time. -/
theorem c6_reset_revokes_all_refresh (db : DB) (token pw pwc : String)
    (rt : PasswordResetToken)
    (hfind : db.prTokens.find? (fun t => t.token == token) = some rt)
    (hvalid : rt.is_valid db.now = true) (hpw : pw = pwc) :
    (passwordResetConfirmPost db token true pw pwc).1.status = 200
    ∧ (∀ row ∈ db.refreshRows, row.user = rt.user →
        { row with is_revoked := true }
          ∈ (passwordResetConfirmPost db token true pw pwc).2.refreshRows)
    ∧ (∀ row ∈ (passwordResetConfirmPost db token true pw pwc).2.refreshRows,
        row.user = rt.user → ∀ n : Int, row.is_valid n = false) := by
  subst hpw
  have hrr : passwordResetConfirmPost db token true pw pw
      = ({ status := 200,
           message := "Password reset successful. You can now login with your new password." },
         { db with
             users := db.users.map
               (fun u => if u.uid == rt.user then { u with password := pw } else u),
             prTokens := db.prTokens.map
               (fun t => if t.token == token then { t with is_used := true } else t),
             refreshRows := db.refreshRows.map
               (fun r => if r.user == rt.user then { r with is_revoked := true } else r) }) := by
    unfold passwordResetConfirmPost
    rw [hfind]
    simp only [hvalid, bne_self_eq_false]
    rfl
  rw [hrr]
  refine ⟨rfl, ?_, ?_⟩
  · intro row hrow hu
    simp only [List.mem_map]
    exact ⟨row, hrow, by simp [hu]⟩
  · intro row hrow hu n
    simp only [List.mem_map] at hrow
    obtain ⟨a, _, rfl⟩ := hrow
    by_cases ha : a.user = rt.user
    · simp [ha, RefreshToken.is_valid]
    · rw [if_neg (by simpa using ha)] at hu ⊢
      exact absurd hu ha

/-- C6 witness: on the concrete ready store the single refresh row of the
sample user comes back revoked. -/
theorem c6_reset_revokes_all_refresh_witness :
    ({ sampleRefreshRow with is_revoked := true })
      ∈ (passwordResetConfirmPost dbResetReady "tp" true "NewPw1A" "NewPw1A").2.refreshRows :=
  (c6_reset_revokes_all_refresh dbResetReady "tp" "NewPw1A" "NewPw1A"
      { user := 1, token := "tp", created_at := 0, expires_at := 7200, is_used := false,
        ip_address := "", user_agent := "" }
      (by decide) (by decide) rfl).2.1
    sampleRefreshRow (by decide) rfl

/-- C4 counterexample: in the concrete login run the state reached right
after the success-attempt write and before the session write is among the
interruption-reachable states and holds a success-flagged attempt while the
session table is still empty — the audit write and the credential issuance
are not committed as one atomic unit. -/
theorem c4_nonatomic_counterexample :
    c4MidState ∈ loginCrashStates dbOneUser "a@x.com" "GoodPw1!" "ip" "ua" "r1" "sk1"
    ∧ c4MidState.attempts.any (fun a => a.success) = true
    ∧ c4MidState.sessions = [] := by
  decide

/-- The session-creation step of the login flow leaves the attempts table
unchanged. -/
theorem loginCreateSession_attempts (db : DB) (email ip ua sk : String) :
    (loginCreateSession db email ip ua sk).attempts = db.attempts := by
  unfold loginCreateSession
  cases db.users.find? (fun v => iexact v.email email) <;> rfl

/-- The session-creation step leaves the issued-JWT set unchanged. -/
theorem loginCreateSession_jwtIssued (db : DB) (email ip ua sk : String) :
    (loginCreateSession db email ip ua sk).jwtIssued = db.jwtIssued := by
  unfold loginCreateSession
  cases db.users.find? (fun v => iexact v.email email) <;> rfl

/-- The session-creation step appends the new session row when the
case-insensitive user lookup succeeds. -/
theorem loginCreateSession_sessions (db : DB) (email ip ua sk : String) (v : UserRec)
    (h : db.users.find? (fun w => iexact w.email email) = some v) :
    (loginCreateSession db email ip ua sk).sessions
      = db.sessions ++
        [{ user := v.uid, session_key := sk, ip_address := ip, user_agent := ua,
           device_info := get_device_info ua, created_at := db.now,
           last_activity := db.now, is_active := true }] := by
  unfold loginCreateSession
  rw [h]

/-- C4 (amended): an uninterrupted login run that passes validation leaves
the success attempt, the issued refresh credential and the new session
together in the final state; but the writes form no atomic unit — the
intermediate state right after the audit write, reachable when the request
is interrupted, holds the success attempt while the session table is still
the old one. -/
theorem c4_login_write_order (db : DB) (email pw ip ua rt ak sk : String) (u v : UserRec)
    (hok : tokenObtainValidate db email pw = .ok u)
    (hfind : db.users.find? (fun w => iexact w.email email) = some v) :
    (∃ a ∈ (loginPost db email pw ip ua rt ak sk).2.attempts,
        a.success = true ∧ a.email = email)
    ∧ (rt, u.uid) ∈ (loginPost db email pw ip ua rt ak sk).2.jwtIssued
    ∧ (∃ s ∈ (loginPost db email pw ip ua rt ak sk).2.sessions,
        s.session_key = sk ∧ s.user = v.uid)
    ∧ ∃ mid ∈ loginCrashStates db email pw ip ua rt sk,
        (∃ a ∈ mid.attempts, a.success = true ∧ a.email = email)
        ∧ mid.sessions = db.sessions := by
  have h2 : (loginPost db email pw ip ua rt ak sk).2
      = loginCreateSession (loginRecordSuccess (loginIssueJwt db u rt) email ip ua)
          email ip ua sk := by
    unfold loginPost
    rw [hok]
  have husers : (loginRecordSuccess (loginIssueJwt db u rt) email ip ua).users
      = db.users := rfl
  have hatt : (loginPost db email pw ip ua rt ak sk).2.attempts
      = db.attempts ++
        [{ email := email, ip_address := ip, user_agent := ua, success := true,
           attempted_at := db.now, failure_reason := "" }] := by
    rw [h2, loginCreateSession_attempts]
    rfl
  have hjwt : (loginPost db email pw ip ua rt ak sk).2.jwtIssued
      = db.jwtIssued ++ [(rt, u.uid)] := by
    rw [h2, loginCreateSession_jwtIssued]
    rfl
  have hsess : (loginPost db email pw ip ua rt ak sk).2.sessions
      = db.sessions ++
        [{ user := v.uid, session_key := sk, ip_address := ip, user_agent := ua,
           device_info := get_device_info ua, created_at := db.now,
           last_activity := db.now, is_active := true }] := by
    rw [h2, loginCreateSession_sessions _ email ip ua sk v (by rw [husers]; exact hfind)]
    rfl
  refine ⟨?_, ?_, ?_, ?_⟩
  · rw [hatt]
    exact ⟨{ email := email, ip_address := ip, user_agent := ua, success := true,
             attempted_at := db.now, failure_reason := "" },
           List.mem_append_right _ (by simp), rfl, rfl⟩
  · rw [hjwt]
    exact List.mem_append_right _ (by simp)
  · rw [hsess]
    exact ⟨{ user := v.uid, session_key := sk, ip_address := ip, user_agent := ua,
             device_info := get_device_info ua, created_at := db.now,
             last_activity := db.now, is_active := true },
           List.mem_append_right _ (by simp), rfl, rfl⟩
  · refine ⟨loginRecordSuccess (loginIssueJwt db u rt) email ip ua, ?_,
      ⟨{ email := email, ip_address := ip, user_agent := ua, success := true,
         attempted_at := db.now, failure_reason := "" }, ?_, rfl, rfl⟩, rfl⟩
    · unfold loginCrashStates
      rw [hok]
      exact List.mem_cons_of_mem _ (List.mem_cons_of_mem _ (List.mem_cons_self _ _))
    · show _ ∈ db.attempts ++
        [{ email := email, ip_address := ip, user_agent := ua, success := true,
           attempted_at := db.now, failure_reason := "" }]
      exact List.mem_append_right _ (by simp)

/-- C4 witness: the concrete run on the one-user store creates the session. -/
theorem c4_login_write_order_witness :
    ∃ s ∈ (loginPost dbOneUser "a@x.com" "GoodPw1!" "ip" "ua" "r1" "a1" "sk1").2.sessions,
      s.session_key = "sk1" ∧ s.user = sampleUser.uid :=
  (c4_login_write_order dbOneUser "a@x.com" "GoodPw1!" "ip" "ua" "r1" "a1" "sk1"
    sampleUser sampleUser (by decide) (by decide)).2.2.1

/-- After marking every unused verification token of an owner as used, the
owner has no unused verification token left. -/
theorem countP_markUsed_self_ev (l : List EmailVerificationToken) (u : Nat) :
    (l.map (fun t => if t.user == u && !t.is_used then { t with is_used := true } else t)).countP
      (fun t => t.user == u && !t.is_used) = 0 := by
  rw [List.countP_eq_zero]
  intro a ha
  simp only [List.mem_map] at ha
  obtain ⟨b, _, rfl⟩ := ha
  by_cases hb : (b.user == u && !b.is_used) = true
  · simp [hb]
  · rw [if_neg hb]
    exact hb

/-- Marking one owner's unused verification tokens leaves every other
owner's unused count unchanged. -/
theorem countP_markUsed_other_ev (l : List EmailVerificationToken) (u uid : Nat)
    (h : uid ≠ u) :
    (l.map (fun t => if t.user == u && !t.is_used then { t with is_used := true } else t)).countP
      (fun t => t.user == uid && !t.is_used)
      = l.countP (fun t => t.user == uid && !t.is_used) := by
  induction l with
  | nil => rfl
  | cons b l ih =>
    simp only [List.map_cons, List.countP_cons, ih]
    congr 1
    by_cases hb : (b.user == u && !b.is_used) = true
    · have hbu : b.user = u ∧ b.is_used = false := by
        simp only [Bool.and_eq_true, beq_iff_eq, Bool.not_eq_true'] at hb
        exact hb
      simp [hb, hbu.1, hbu.2, Ne.symm h]
    · rw [if_neg hb]

/-- After marking every unused reset token of an owner as used, the owner
has no unused reset token left. -/
theorem countP_markUsed_self_pr (l : List PasswordResetToken) (u : Nat) :
    (l.map (fun t => if t.user == u && !t.is_used then { t with is_used := true } else t)).countP
      (fun t => t.user == u && !t.is_used) = 0 := by
  rw [List.countP_eq_zero]
  intro a ha
  simp only [List.mem_map] at ha
  obtain ⟨b, _, rfl⟩ := ha
  by_cases hb : (b.user == u && !b.is_used) = true
  · simp [hb]
  · rw [if_neg hb]
    exact hb

/-- Marking one owner's unused reset tokens leaves every other owner's
unused count unchanged. -/
theorem countP_markUsed_other_pr (l : List PasswordResetToken) (u uid : Nat)
    (h : uid ≠ u) :
    (l.map (fun t => if t.user == u && !t.is_used then { t with is_used := true } else t)).countP
      (fun t => t.user == uid && !t.is_used)
      = l.countP (fun t => t.user == uid && !t.is_used) := by
  induction l with
  | nil => rfl
  | cons b l ih =>
    simp only [List.map_cons, List.countP_cons, ih]
    congr 1
    by_cases hb : (b.user == u && !b.is_used) = true
    · have hbu : b.user = u ∧ b.is_used = false := by
        simp only [Bool.and_eq_true, beq_iff_eq, Bool.not_eq_true'] at hb
        exact hb
      simp [hb, hbu.1, hbu.2, Ne.symm h]
    · rw [if_neg hb]

/-- Counting over a mapped list only shrinks when the map can only falsify
the predicate. -/
theorem countP_map_le {α : Type} (l : List α) (f : α → α) (p : α → Bool)
    (h : ∀ a, p (f a) = true → p a = true) :
    (l.map f).countP p ≤ l.countP p := by
  rw [List.countP_map]
  exact List.countP_mono_left (fun a _ hpa => h a hpa)

/-- A numeric bound on a projection survives a projection-preserving map. -/
theorem forall_lt_map {α : Type} (l : List α) (f : α → α) (g : α → Nat)
    (hf : ∀ a, g (f a) = g a) (n : Nat) (hb : ∀ t ∈ l, g t < n) :
    ∀ t ∈ l.map f, g t < n := by
  intro t ht
  obtain ⟨a, ha, rfl⟩ := List.mem_map.mp ht
  rw [hf a]
  exact hb a ha

/-- A numeric bound on a projection splits over list append. -/
theorem forall_lt_append {α : Type} (l₁ l₂ : List α) (g : α → Nat) (n : Nat)
    (h₁ : ∀ a ∈ l₁, g a < n) (h₂ : ∀ a ∈ l₂, g a < n) :
    ∀ a ∈ l₁ ++ l₂, g a < n := by
  intro a ha
  rcases List.mem_append.mp ha with h | h
  · exact h₁ a h
  · exact h₂ a h

/-- Invalidate-then-issue keeps the unused verification-token count of every
user at one or below. -/
theorem countP_cleared_append_le_ev (l : List EmailVerificationToken) (u : Nat)
    (nt : EmailVerificationToken) (hnt : nt.user = u) (hnu : nt.is_used = false)
    (uid : Nat) (hold : l.countP (fun t => t.user == uid && !t.is_used) ≤ 1) :
    ((l.map (fun t => if t.user == u && !t.is_used then { t with is_used := true } else t))
        ++ [nt]).countP (fun t => t.user == uid && !t.is_used) ≤ 1 := by
  rw [List.countP_append]
  by_cases huid : uid = u
  · subst huid
    rw [countP_markUsed_self_ev]
    simp [List.countP_cons, hnt, hnu]
  · rw [countP_markUsed_other_ev l u uid huid]
    have h0 : ([nt].countP (fun t => t.user == uid && !t.is_used)) = 0 := by
      simp [List.countP_cons, hnt, Ne.symm huid]
    omega

/-- Invalidate-then-issue keeps the unused reset-token count of every user
at one or below. -/
theorem countP_cleared_append_le_pr (l : List PasswordResetToken) (u : Nat)
    (nt : PasswordResetToken) (hnt : nt.user = u) (hnu : nt.is_used = false)
    (uid : Nat) (hold : l.countP (fun t => t.user == uid && !t.is_used) ≤ 1) :
    ((l.map (fun t => if t.user == u && !t.is_used then { t with is_used := true } else t))
        ++ [nt]).countP (fun t => t.user == uid && !t.is_used) ≤ 1 := by
  rw [List.countP_append]
  by_cases huid : uid = u
  · subst huid
    rw [countP_markUsed_self_pr]
    simp [List.countP_cons, hnt, hnu]
  · rw [countP_markUsed_other_pr l u uid huid]
    have h0 : ([nt].countP (fun t => t.user == uid && !t.is_used)) = 0 := by
      simp [List.countP_cons, hnt, Ne.symm huid]
    omega

/-- Appending a token for a brand-new owner keeps every unused count at one
or below. -/
theorem countP_append_fresh_le_ev (l : List EmailVerificationToken) (n : Nat)
    (t : EmailVerificationToken) (ht : t.user = n) (hb : ∀ a ∈ l, a.user < n)
    (uid : Nat) (hold : l.countP (fun x => x.user == uid && !x.is_used) ≤ 1) :
    (l ++ [t]).countP (fun x => x.user == uid && !x.is_used) ≤ 1 := by
  rw [List.countP_append]
  by_cases huid : uid = n
  · subst huid
    have h0 : l.countP (fun x => x.user == uid && !x.is_used) = 0 := by
      rw [List.countP_eq_zero]
      intro a ha
      simp only [Bool.and_eq_true, beq_iff_eq, not_and]
      intro hcon
      exact absurd hcon (Nat.ne_of_lt (hb a ha))
    rw [h0]
    have h1 : ([t].countP (fun x => x.user == uid && !x.is_used)) ≤ 1 := by
      simp only [List.countP_cons, List.countP_nil]
      split <;> simp
    omega
  · have h0 : ([t].countP (fun x => x.user == uid && !x.is_used)) = 0 := by
      simp [List.countP_cons, ht, Ne.symm huid]
    omega

/-- `Inv` only looks at the users, the two token tables and the key counter;
any state agreeing there inherits it. -/
theorem inv_of_fields_eq (db db' : DB) (h1 : db'.evTokens = db.evTokens)
    (h2 : db'.prTokens = db.prTokens) (h3 : db'.users = db.users)
    (h4 : db'.nextUid = db.nextUid) (h : Inv db) : Inv db' := by
  obtain ⟨hc, he, hp, hu⟩ := h
  refine ⟨fun uid => ?_, ?_, ?_, ?_⟩
  · unfold unusedEvCount unusedPrCount
    rw [h1, h2]
    exact hc uid
  · rw [h1, h4]
    exact he
  · rw [h2, h4]
    exact hp
  · rw [h3, h4]
    exact hu

/-- The login flow does not touch the users, the token tables or the key
counter. -/
theorem loginPost_fields (db : DB) (email pw ip ua rt ak sk : String) :
    (loginPost db email pw ip ua rt ak sk).2.evTokens = db.evTokens
    ∧ (loginPost db email pw ip ua rt ak sk).2.prTokens = db.prTokens
    ∧ (loginPost db email pw ip ua rt ak sk).2.users = db.users
    ∧ (loginPost db email pw ip ua rt ak sk).2.nextUid = db.nextUid := by
  unfold loginPost loginRecordFailure loginCreateSession loginRecordSuccess loginIssueJwt
  split
  · exact ⟨rfl, rfl, rfl, rfl⟩
  · split <;> exact ⟨rfl, rfl, rfl, rfl⟩

/-- The logout flow does not touch the users, the token tables or the key
counter. -/
theorem logoutPost_fields (db : DB) (uid : Nat) (r : Option String) :
    (logoutPost db uid r).2.evTokens = db.evTokens
    ∧ (logoutPost db uid r).2.prTokens = db.prTokens
    ∧ (logoutPost db uid r).2.users = db.users
    ∧ (logoutPost db uid r).2.nextUid = db.nextUid := by
  unfold logoutPost
  cases r with
  | none => exact ⟨rfl, rfl, rfl, rfl⟩
  | some rt =>
    by_cases h : jwtParseOk db rt = true <;> simp [h]

/-- Session revocation does not touch the users, the token tables or the key
counter. -/
theorem revokeSessionPost_fields (db : DB) (uid : Nat) (key : String) :
    (revokeSessionPost db uid key).2.evTokens = db.evTokens
    ∧ (revokeSessionPost db uid key).2.prTokens = db.prTokens
    ∧ (revokeSessionPost db uid key).2.users = db.users
    ∧ (revokeSessionPost db uid key).2.nextUid = db.nextUid := by
  unfold revokeSessionPost
  split
  · exact ⟨rfl, rfl, rfl, rfl⟩
  · exact ⟨rfl, rfl, rfl, rfl⟩

/-- Registration preserves the token-uniqueness invariant: the fresh user
owns no earlier token. -/
theorem inv_register (db : DB) (email username : String) (pwAccepted : Bool)
    (pw pwConfirm tok : String) (h : Inv db) :
    Inv (registerCreate db email username pwAccepted pw pwConfirm tok).2 := by
  obtain ⟨hc, he, hp, hu⟩ := h
  unfold registerCreate
  split
  · exact ⟨hc, he, hp, hu⟩
  · refine ⟨fun uid => ?_, ?_, ?_, ?_⟩
    · exact ⟨countP_append_fresh_le_ev db.evTokens db.nextUid
        { user := db.nextUid, token := tok, created_at := db.now,
          expires_at := db.now + 24 * 3600, is_used := false }
        rfl he uid (hc uid).1, (hc uid).2⟩
    · exact forall_lt_append db.evTokens
        [{ user := db.nextUid, token := tok, created_at := db.now,
           expires_at := db.now + 24 * 3600, is_used := false }]
        (fun t => t.user) (db.nextUid + 1)
        (fun a ha => Nat.lt_succ_of_lt (he a ha))
        (fun a ha => by
          rw [List.mem_singleton.mp ha]
          exact Nat.lt_succ_self _)
    · exact fun t ht => Nat.lt_succ_of_lt (hp t ht)
    · exact forall_lt_append db.users
        [{ uid := db.nextUid, email := strLower email, username := strLower username,
           password := pw, is_active := true, is_verified := false }]
        (fun u => u.uid) (db.nextUid + 1)
        (fun a ha => Nat.lt_succ_of_lt (hu a ha))
        (fun a ha => by
          rw [List.mem_singleton.mp ha]
          exact Nat.lt_succ_self _)

/-- Email verification preserves the token-uniqueness invariant: it only
consumes a token and flips a user flag. -/
theorem inv_verify (db : DB) (tok : String) (h : Inv db) :
    Inv (verify_email db tok).2 := by
  obtain ⟨hc, he, hp, hu⟩ := h
  unfold verify_email
  split
  · exact ⟨hc, he, hp, hu⟩
  · rename_i vt hvt
    split
    · exact ⟨hc, he, hp, hu⟩
    · refine ⟨fun uid => ?_, ?_, hp, ?_⟩
      · refine ⟨le_trans (countP_map_le db.evTokens
          (fun t => if t.token == tok then { t with is_used := true } else t)
          (fun t => t.user == uid && !t.is_used) ?_) (hc uid).1, (hc uid).2⟩
        intro a hfa
        by_cases hx : (a.token == tok) = true
        · simp [hx] at hfa
        · simpa [hx] using hfa
      · exact forall_lt_map db.evTokens
          (fun t => if t.token == tok then { t with is_used := true } else t)
          (fun t => t.user)
          (fun a => by by_cases hx : (a.token == tok) = true <;> simp [hx])
          db.nextUid he
      · exact forall_lt_map db.users
          (fun w => if w.uid == vt.user then { w with is_verified := true } else w)
          (fun w => w.uid)
          (fun a => by by_cases hx : (a.uid == vt.user) = true <;> simp [hx])
          db.nextUid hu

/-- Resending a verification email preserves the invariant: it invalidates
before issuing. -/
theorem inv_resend (db : DB) (email tok : String) (h : Inv db) :
    Inv (resendVerificationPost db email tok).2 := by
  obtain ⟨hc, he, hp, hu⟩ := h
  unfold resendVerificationPost
  split
  · exact ⟨hc, he, hp, hu⟩
  · rename_i u hfind
    split
    · exact ⟨hc, he, hp, hu⟩
    · have huid : u.uid < db.nextUid := hu u (List.mem_of_find?_eq_some hfind)
      refine ⟨fun uid => ?_, ?_, hp, hu⟩
      · exact ⟨countP_cleared_append_le_ev db.evTokens u.uid
          { user := u.uid, token := tok, created_at := db.now,
            expires_at := db.now + 24 * 3600, is_used := false }
          rfl rfl uid (hc uid).1, (hc uid).2⟩
      · exact forall_lt_append
          (db.evTokens.map
            (fun t => if t.user == u.uid && !t.is_used then { t with is_used := true } else t))
          ([{ user := u.uid, token := tok, created_at := db.now,
              expires_at := db.now + 24 * 3600, is_used := false }] :
            List EmailVerificationToken)
          (fun t => t.user) db.nextUid
          (forall_lt_map db.evTokens
            (fun t => if t.user == u.uid && !t.is_used then { t with is_used := true } else t)
            (fun t => t.user)
            (fun a => by by_cases hx : (a.user == u.uid && !a.is_used) = true <;> simp [hx])
            db.nextUid he)
          (fun a ha => by
            rw [List.mem_singleton.mp ha]
            exact huid)

/-- Requesting a password reset preserves the invariant: it invalidates
before issuing. -/
theorem inv_resetRequest (db : DB) (email tok ip ua : String) (h : Inv db) :
    Inv (passwordResetRequestPost db email tok ip ua).2 := by
  obtain ⟨hc, he, hp, hu⟩ := h
  unfold passwordResetRequestPost
  split
  · exact ⟨hc, he, hp, hu⟩
  · rename_i u hfind
    have huid : u.uid < db.nextUid := hu u (List.mem_of_find?_eq_some hfind)
    refine ⟨fun uid => ?_, he, ?_, hu⟩
    · exact ⟨(hc uid).1, countP_cleared_append_le_pr db.prTokens u.uid
        { user := u.uid, token := tok, created_at := db.now,
          expires_at := db.now + 2 * 3600, is_used := false,
          ip_address := ip, user_agent := ua }
        rfl rfl uid (hc uid).2⟩
    · exact forall_lt_append
        (db.prTokens.map
          (fun t => if t.user == u.uid && !t.is_used then { t with is_used := true } else t))
        ([{ user := u.uid, token := tok, created_at := db.now,
            expires_at := db.now + 2 * 3600, is_used := false,
            ip_address := ip, user_agent := ua }] :
          List PasswordResetToken)
        (fun t => t.user) db.nextUid
        (forall_lt_map db.prTokens
          (fun t => if t.user == u.uid && !t.is_used then { t with is_used := true } else t)
          (fun t => t.user)
          (fun a => by by_cases hx : (a.user == u.uid && !a.is_used) = true <;> simp [hx])
          db.nextUid hp)
        (fun a ha => by
          rw [List.mem_singleton.mp ha]
          exact huid)

/-- Confirming a password reset preserves the invariant: it only consumes a
reset token, rewrites a password and revokes refresh rows. -/
theorem inv_resetConfirm (db : DB) (token : String) (pwAccepted : Bool)
    (pw pwConfirm : String) (h : Inv db) :
    Inv (passwordResetConfirmPost db token pwAccepted pw pwConfirm).2 := by
  obtain ⟨hc, he, hp, hu⟩ := h
  unfold passwordResetConfirmPost
  split
  · exact ⟨hc, he, hp, hu⟩
  · rename_i rt _
    split
    · exact ⟨hc, he, hp, hu⟩
    · split
      · exact ⟨hc, he, hp, hu⟩
      · split
        · exact ⟨hc, he, hp, hu⟩
        · refine ⟨fun uid => ?_, he, ?_, ?_⟩
          · refine ⟨(hc uid).1, le_trans (countP_map_le db.prTokens
              (fun t => if t.token == token then { t with is_used := true } else t)
              (fun t => t.user == uid && !t.is_used) ?_) (hc uid).2⟩
            intro a hfa
            by_cases hx : (a.token == token) = true
            · simp [hx] at hfa
            · simpa [hx] using hfa
          · exact forall_lt_map db.prTokens
              (fun t => if t.token == token then { t with is_used := true } else t)
              (fun t => t.user)
              (fun a => by by_cases hx : (a.token == token) = true <;> simp [hx])
              db.nextUid hp
          · exact forall_lt_map db.users
              (fun w => if w.uid == rt.user then { w with password := pw } else w)
              (fun w => w.uid)
              (fun a => by by_cases hx : (a.uid == rt.user) = true <;> simp [hx])
              db.nextUid hu

/-- Changing a password preserves the invariant: it rewrites a password and
revokes refresh rows only. -/
theorem inv_changePassword (db : DB) (uid : Nat) (oldPw : String) (pwAccepted : Bool)
    (newPw newPwConfirm : String) (h : Inv db) :
    Inv (changePasswordPost db uid oldPw pwAccepted newPw newPwConfirm).2 := by
  obtain ⟨hc, he, hp, hu⟩ := h
  unfold changePasswordPost
  split
  · exact ⟨hc, he, hp, hu⟩
  · split
    · exact ⟨hc, he, hp, hu⟩
    · split
      · exact ⟨hc, he, hp, hu⟩
      · split
        · exact ⟨hc, he, hp, hu⟩
        · refine ⟨hc, he, hp, ?_⟩
          exact forall_lt_map db.users
            (fun v => if v.uid == uid then { v with password := newPw } else v)
            (fun v => v.uid)
            (fun a => by by_cases hx : (a.uid == uid) = true <;> simp [hx])
            db.nextUid hu

/-- Every single request preserves the token-uniqueness invariant. -/
theorem step_inv (db db' : DB) (hstep : Step db db') (h : Inv db) : Inv db' := by
  cases hstep with
  | register email username pwAccepted pw pwConfirm tok =>
    exact inv_register db email username pwAccepted pw pwConfirm tok h
  | verify tok => exact inv_verify db tok h
  | resend email tok => exact inv_resend db email tok h
  | resetRequest email tok ip ua => exact inv_resetRequest db email tok ip ua h
  | resetConfirm token pwAccepted pw pwConfirm =>
    exact inv_resetConfirm db token pwAccepted pw pwConfirm h
  | login email pw ip ua refreshTok accessTok sessionKey =>
    obtain ⟨h1, h2, h3, h4⟩ := loginPost_fields db email pw ip ua refreshTok accessTok sessionKey
    exact inv_of_fields_eq db _ h1 h2 h3 h4 h
  | logout uid refresh =>
    obtain ⟨h1, h2, h3, h4⟩ := logoutPost_fields db uid refresh
    exact inv_of_fields_eq db _ h1 h2 h3 h4 h
  | changePassword uid oldPw pwAccepted newPw newPwConfirm =>
    exact inv_changePassword db uid oldPw pwAccepted newPw newPwConfirm h
  | revokeSession uid key =>
    obtain ⟨h1, h2, h3, h4⟩ := revokeSessionPost_fields db uid key
    exact inv_of_fields_eq db _ h1 h2 h3 h4 h
  | tick dt hdt => exact inv_of_fields_eq db _ rfl rfl rfl rfl h

/-- The empty store satisfies the invariant. -/
theorem inv_init : Inv DB.init := by
  refine ⟨fun uid => ⟨?_, ?_⟩, ?_, ?_, ?_⟩ <;>
    simp [unusedEvCount, unusedPrCount, DB.init]

/-- Every reachable state satisfies the token-uniqueness invariant. -/
theorem reachable_inv (db : DB) (h : Reachable db) : Inv db := by
  induction h with
  | refl => exact inv_init
  | tail _ hstep ih => exact step_inv _ _ hstep ih

/-- Lookup over an append resolves on the left part when that already finds
a row. -/
theorem find?_append_some {α : Type} (l₁ l₂ : List α) (p : α → Bool) (x : α)
    (h : l₁.find? p = some x) : (l₁ ++ l₂).find? p = some x := by
  rw [List.find?_append, h]
  rfl

/-- Marking tokens used commutes with lookup by token string, because the
marking preserves the token field. -/
theorem find?_token_mark (l : List EmailVerificationToken) (u : Nat) (tk : String) :
    (l.map (fun t => if t.user == u && !t.is_used then { t with is_used := true } else t)).find?
        (fun t => t.token == tk)
      = (l.find? (fun t => t.token == tk)).map
          (fun t => if t.user == u && !t.is_used then { t with is_used := true } else t) := by
  induction l with
  | nil => rfl
  | cons a l ih =>
    have hp' : (((if a.user == u && !a.is_used then { a with is_used := true } else a) :
          EmailVerificationToken).token == tk) = (a.token == tk) := by
      by_cases hc : (a.user == u && !a.is_used) = true <;> simp [hc]
    rw [List.map_cons, List.find?_cons, List.find?_cons, hp']
    cases hb : (a.token == tk) with
    | true => rfl
    | false => exact ih

/-- C1: first, in every reachable state every user owns at most one unused —
a fortiori at most one unused and unexpired — verification token and at most
one unused reset token; second, issuing a second verification token through
the resend flow marks the outstanding one used, so validating the first
token afterwards fails with the already-used report while the first token
row is recorded as used. -/
theorem c1_at_most_one_outstanding_token :
    (∀ db : DB, Reachable db → ∀ uid : Nat,
      db.evTokens.countP
          (fun t => t.user == uid && !t.is_used && !(t.is_expired db.now)) ≤ 1
      ∧ db.prTokens.countP
          (fun t => t.user == uid && !t.is_used && !(t.is_expired db.now)) ≤ 1)
    ∧ (∀ (db : DB) (email tok : String) (u : UserRec) (t1 : EmailVerificationToken),
        db.users.find? (fun v => iexact v.email email) = some u →
        u.is_verified = false →
        t1 ∈ db.evTokens → t1.user = u.uid → t1.is_used = false →
        (∀ t' ∈ db.evTokens, t'.token = t1.token → t' = t1) →
        tok ≠ t1.token →
        (resendVerificationPost db email tok).1.status = 200
        ∧ (verify_email (resendVerificationPost db email tok).2 t1.token).1
            = ⟨400, "Verification link has expired or been used."⟩
        ∧ ∃ t' ∈ (resendVerificationPost db email tok).2.evTokens,
            t'.token = t1.token ∧ t'.is_used = true) := by
  constructor
  · intro db hreach uid
    obtain ⟨hc, _, _, _⟩ := reachable_inv db hreach
    refine ⟨le_trans (List.countP_mono_left ?_) (hc uid).1,
            le_trans (List.countP_mono_left ?_) (hc uid).2⟩
    · intro t _ ht
      simp only [Bool.and_eq_true] at ht ⊢
      exact ht.1
    · intro t _ ht
      simp only [Bool.and_eq_true] at ht ⊢
      exact ht.1
  · intro db email tok u t1 hfind hver hmem huser hunused huniq htok
    have hres : resendVerificationPost db email tok
        = ({ status := 200, message := "Verification email sent successfully." },
           { db with evTokens :=
               (db.evTokens.map (fun t =>
                 if t.user == u.uid && !t.is_used then { t with is_used := true } else t))
               ++ [{ user := u.uid, token := tok, created_at := db.now,
                     expires_at := db.now + 24 * 3600, is_used := false }] }) := by
      unfold resendVerificationPost
      rw [hfind]
      simp only [hver]
      rfl
    have hfind1 : db.evTokens.find? (fun t => t.token == t1.token) = some t1 := by
      have hsome : (db.evTokens.find? (fun t => t.token == t1.token)).isSome := by
        rw [List.find?_isSome]
        exact ⟨t1, hmem, by simp⟩
      obtain ⟨x, hx⟩ := Option.isSome_iff_exists.mp hsome
      rw [hx, huniq x (List.mem_of_find?_eq_some hx) (by simpa using List.find?_some hx)]
    have hA : (resendVerificationPost db email tok).2.evTokens
        = (db.evTokens.map (fun t =>
            if t.user == u.uid && !t.is_used then { t with is_used := true } else t))
          ++ [{ user := u.uid, token := tok, created_at := db.now,
                expires_at := db.now + 24 * 3600, is_used := false }] := by
      rw [hres]
    have hmark : List.find? (fun t => t.token == t1.token)
        ((db.evTokens.map (fun t =>
            if t.user == u.uid && !t.is_used then { t with is_used := true } else t))
          ++ [{ user := u.uid, token := tok, created_at := db.now,
                expires_at := db.now + 24 * 3600, is_used := false }])
        = some { t1 with is_used := true } := by
      apply find?_append_some
      rw [find?_token_mark, hfind1]
      simp [huser, hunused]
    refine ⟨by rw [hres], ?_, ?_⟩
    · unfold verify_email
      rw [hA, hmark]
      rfl
    · rw [hA]
      refine ⟨{ t1 with is_used := true }, ?_, rfl, rfl⟩
      apply List.mem_append_left
      exact List.mem_map.mpr ⟨t1, hmem, by simp [huser, hunused]⟩

/-- C1 witness: the invariant evaluated on the state reached by one concrete
registration, and the resend-then-validate scenario on the concrete store
with an outstanding verification token. -/
theorem c1_at_most_one_outstanding_token_witness :
    ((registerCreate DB.init "a@x.com" "alice" true "GoodPw1!" "GoodPw1!" "t0").2.evTokens.countP
        (fun t => t.user == 0 && !t.is_used
          && !(t.is_expired
            (registerCreate DB.init "a@x.com" "alice" true "GoodPw1!" "GoodPw1!" "t0").2.now))
        ≤ 1)
    ∧ (verify_email (resendVerificationPost dbResendReady "b@x.com" "tv2").2 "tv1").1
        = ⟨400, "Verification link has expired or been used."⟩ :=
  ⟨(c1_at_most_one_outstanding_token.1 _
      (Relation.ReflTransGen.tail Relation.ReflTransGen.refl
        (Step.register DB.init "a@x.com" "alice" true "GoodPw1!" "GoodPw1!" "t0")) 0).1,
   (c1_at_most_one_outstanding_token.2 dbResendReady "b@x.com" "tv2" unverifiedUser
      { user := 2, token := "tv1", created_at := 0, expires_at := 86400, is_used := false }
      (by decide) rfl (by decide) rfl rfl (by decide) (by decide)).2.1⟩

end Custos
